import Mathlib

/-!
Verification development for the mesh-decoding and volume-estimation core of
the MasterCraft web repository (class STLUtils in demo_server.py).

Modelling conventions:
* A file (byte stream) is a List Nat, one entry per byte.
* Python float arithmetic in the volume estimator is modelled exactly over
  the rationals; coordinates decoded from the wire are kept as their raw
  32-bit IEEE-754 little-endian words (Nat), since no claim depends on the
  numeric interpretation of a decoded coordinate.
* The struct.unpack calls of the source raise struct.error when the buffer
  is shorter than required; this is modelled by the Except monad with an
  error value recording the required buffer size, exactly the information
  the Python exception message carries.
* The single count field is read with the format "@I" (platform-native byte
  order), while all geometry uses "<3f" (fixed little-endian); the model is
  therefore parameterised by the platform byte order for that one field.
-/

set_option maxRecDepth 8000

namespace MasterCraft

/-- A 3D point with one coordinate per axis, polymorphic in the coordinate
type: Nat for raw decoded 32-bit words, the rationals for estimator
arithmetic. -/
structure Point3D (α : Type) where
  x : α
  y : α
  z : α
deriving DecidableEq, Repr

/-- An ordered triple of points, exactly the tuple (p1, p2, p3) returned by
STLUtils.read_triangle. -/
structure Triangle (α : Type) where
  p1 : Point3D α
  p2 : Point3D α
  p3 : Point3D α
deriving DecidableEq, Repr

/-- Errors of the decoding and estimation operations.  structError models
the Python struct.error raised by struct.unpack on a short buffer; its
message carries only the required buffer size.  truncatedInput and
invalidDensity are the error kinds named by the specification; they are
modelled from the spec for comparison and are never produced by the code
embedding. -/
inductive StlError where
  | structError (required : Nat)
  | truncatedInput (trianglesRead : Nat)
  | invalidDensity
deriving DecidableEq, Repr

/-- The platform byte order used by the struct format "@I". -/
inductive ByteOrder where
  | little
  | big
deriving DecidableEq, Repr

/-! ## Best-effort text decoding (bytes.decode with errors replace) -/

/-- The Unicode replacement character emitted for invalid byte sequences. -/
def replChar : Char := Char.ofNat 0xFFFD

/-- A UTF-8 continuation byte (0x80 to 0xBF). -/
def isCont (b : Nat) : Bool := 0x80 ≤ b && b ≤ 0xBF

/-- Decode one UTF-8 scalar whose lead byte is b and whose following bytes
are rest; returns the produced character and how many bytes of rest were
consumed.  Invalid sequences produce the replacement character after the
maximal valid prefix, the policy CPython follows for errors replace. -/
def utf8Step (b : Nat) (rest : List Nat) : Char × Nat :=
  if b < 0x80 then
    (Char.ofNat b, 0)
  else if b < 0xC2 then
    (replChar, 0)
  else if b ≤ 0xDF then
    match rest with
    | c1 :: _ =>
      if isCont c1 then (Char.ofNat ((b - 0xC0) * 0x40 + (c1 - 0x80)), 1)
      else (replChar, 0)
    | [] => (replChar, 0)
  else if b ≤ 0xEF then
    let lo := if b = 0xE0 then 0xA0 else 0x80
    let hi := if b = 0xED then 0x9F else 0xBF
    match rest with
    | c1 :: rest2 =>
      if lo ≤ c1 && c1 ≤ hi then
        match rest2 with
        | c2 :: _ =>
          if isCont c2 then
            (Char.ofNat ((b - 0xE0) * 0x1000 + (c1 - 0x80) * 0x40 + (c2 - 0x80)), 2)
          else (replChar, 1)
        | [] => (replChar, 1)
      else (replChar, 0)
    | [] => (replChar, 0)
  else if b ≤ 0xF4 then
    let lo := if b = 0xF0 then 0x90 else 0x80
    let hi := if b = 0xF4 then 0x8F else 0xBF
    match rest with
    | c1 :: rest2 =>
      if lo ≤ c1 && c1 ≤ hi then
        match rest2 with
        | c2 :: rest3 =>
          if isCont c2 then
            match rest3 with
            | c3 :: _ =>
              if isCont c3 then
                (Char.ofNat ((b - 0xF0) * 0x40000 + (c1 - 0x80) * 0x1000
                  + (c2 - 0x80) * 0x40 + (c3 - 0x80)), 3)
              else (replChar, 2)
            | [] => (replChar, 2)
          else (replChar, 1)
        | [] => (replChar, 1)
      else (replChar, 0)
    | [] => (replChar, 0)
  else
    (replChar, 0)

/-- Worker for utf8DecodeReplace, structurally recursive on a fuel bound so
that it reduces inside the kernel; each step consumes at least one byte, so
fuel equal to the list length is always enough. -/
def utf8DecodeAux : Nat → List Nat → List Char
  | _, [] => []
  | 0, _ :: _ => []
  | fuel + 1, b :: rest =>
    (utf8Step b rest).1 :: utf8DecodeAux fuel (rest.drop (utf8Step b rest).2)

/-- Best-effort UTF-8 decoding of a byte list: every byte is consumed, and
invalid sequences become replacement characters; decoding never fails. -/
def utf8DecodeReplace (l : List Nat) : List Char :=
  utf8DecodeAux l.length l

instance {ε α : Type} [DecidableEq ε] [DecidableEq α] : DecidableEq (Except ε α) :=
  fun a b =>
    match a, b with
    | .ok x, .ok y =>
      if h : x = y then isTrue (by rw [h]) else
        isFalse (fun c => h (by injection c))
    | .error x, .error y =>
      if h : x = y then isTrue (by rw [h]) else
        isFalse (fun c => h (by injection c))
    | .ok _, .error _ => isFalse (fun c => by injection c)
    | .error _, .ok _ => isFalse (fun c => by injection c)

/-- The marker bytes of the textual variant, the characters of the word
solid. -/
def solidMarker : List Char := ['s', 'o', 'l', 'i', 'd']

/-! ## STLUtils -/

/-- STLUtils.is_binary: read the leading 80 bytes, decode them with
errors replace, and classify the stream as binary exactly when the decoded
header does not start with the marker solid. -/
def is_binary (file : List Nat) : Bool :=
  !(solidMarker.isPrefixOf (utf8DecodeReplace (file.take 80)))

/-- Assemble an unsigned 32-bit integer from exactly four bytes in the given
byte order (format "@I": platform-native order; "<I" would be little). -/
def u32OfBytes (ord : ByteOrder) (bs : List Nat) : Nat :=
  match ord, bs with
  | .little, [b0, b1, b2, b3] => b0 + 0x100 * b1 + 0x10000 * b2 + 0x1000000 * b3
  | .big, [b0, b1, b2, b3] => b3 + 0x100 * b2 + 0x10000 * b1 + 0x1000000 * b0
  | _, _ => 0

/-- struct.unpack with format "@I": requires a buffer of exactly 4 bytes,
otherwise raises struct.error naming that required size. -/
def unpackU32 (ord : ByteOrder) (bs : List Nat) : Except StlError Nat :=
  if bs.length = 4 then .ok (u32OfBytes ord bs) else .error (.structError 4)

/-- Assemble one little-endian 32-bit word from exactly four bytes; this is
the raw bit pattern of one "<f" field. -/
def f32WordOfBytes (bs : List Nat) : Nat :=
  match bs with
  | [b0, b1, b2, b3] => b0 + 0x100 * b1 + 0x10000 * b2 + 0x1000000 * b3
  | _ => 0

/-- struct.unpack with format "<3f": requires a buffer of exactly 12 bytes,
otherwise raises struct.error naming that required size; on success yields
the three little-endian 32-bit words. -/
def unpack3f (bs : List Nat) : Except StlError (Point3D Nat) :=
  if bs.length = 12 then
    .ok ⟨f32WordOfBytes (bs.take 4), f32WordOfBytes ((bs.drop 4).take 4),
      f32WordOfBytes ((bs.drop 8).take 4)⟩
  else .error (.structError 12)

/-- The three words of one decoded point, read from the front of a 12-byte
buffer; this is exactly the success value of unpack3f. -/
def pointAt (bs : List Nat) : Point3D Nat :=
  ⟨f32WordOfBytes (bs.take 4), f32WordOfBytes ((bs.drop 4).take 4),
    f32WordOfBytes ((bs.drop 8).take 4)⟩

/-- The triangle decoded from the front of a 50-byte record, skipping the
12-byte normal. -/
def triAt (bs : List Nat) : Triangle Nat :=
  ⟨pointAt ((bs.drop 12).take 12), pointAt ((bs.drop 24).take 12),
    pointAt ((bs.drop 36).take 12)⟩

/-- STLUtils.read_triangle: from the current stream position read and
discard a 3-float normal, read the three vertex points, skip the 2-byte
attribute field (a plain read that never fails), and return the triangle
together with the rest of the stream.  Each unpack validates its own
12-byte buffer in the order the source performs the reads. -/
def read_triangle (bs : List Nat) : Except StlError (Triangle Nat × List Nat) := do
  let _ ← unpack3f (bs.take 12)
  let p1 ← unpack3f ((bs.drop 12).take 12)
  let p2 ← unpack3f ((bs.drop 24).take 12)
  let p3 ← unpack3f ((bs.drop 36).take 12)
  pure (⟨p1, p2, p3⟩, bs.drop 50)

/-- The decoding loop of STLUtils.read_stl: calls read_triangle once per
declared triangle and appends each result to the accumulated instance list
in the order encountered. -/
def readLoop : Nat → List Nat → List (Triangle Nat) →
    Except StlError (List (Triangle Nat))
  | 0, _, acc => .ok acc
  | n + 1, bs, acc => do
    let r ← read_triangle bs
    readLoop n r.2 (acc ++ [r.1])

/-- STLUtils.read_stl: if the stream is classified binary, seek past the
80-byte header, unpack the native-order unsigned 32-bit triangle count, and
run the decoding loop starting from the instance state tris (the field
self.triangles); a textual stream leaves the state untouched. -/
def read_stl (ord : ByteOrder) (file : List Nat) (tris : List (Triangle Nat)) :
    Except StlError (List (Triangle Nat)) :=
  if is_binary file then do
    let rest := file.drop 80
    let n ← unpackU32 ord (rest.take 4)
    readLoop n (rest.drop 4) tris
  else .ok tris

/-- STLUtils.signed_volume_of_triangle, with Python float arithmetic
modelled exactly over the rationals. -/
def signed_volume_of_triangle (p1 p2 p3 : Point3D ℚ) : ℚ :=
  let v321 := p3.x * p2.y * p1.z
  let v231 := p2.x * p3.y * p1.z
  let v312 := p3.x * p1.y * p2.z
  let v132 := p1.x * p3.y * p2.z
  let v213 := p2.x * p1.y * p3.z
  let v123 := p1.x * p2.y * p3.z
  (1 / 6) * (-v321 + v231 + v312 - v132 - v213 + v123)

/-- STLUtils.calculate_volume: sum the signed per-triangle volumes, divide
by 1000, and multiply by the density; the function is total and performs no
validation of the density argument. -/
def calculate_volume (triangles : List (Triangle ℚ)) (material_mass : ℚ) :
    ℚ × ℚ :=
  let total_volume :=
    (triangles.map (fun t => signed_volume_of_triangle t.p1 t.p2 t.p3)).sum / 1000
  (total_volume, total_volume * material_mass)

/-- Modelled from the spec: the estimator contract of section 4.2 with its
InvalidDensity error condition, which is absent from the source.  A density
below zero fails; otherwise the result is the pair the source computes. -/
def calculate_volume_spec (triangles : List (Triangle ℚ)) (material_mass : ℚ) :
    Except StlError (ℚ × ℚ) :=
  if material_mass < 0 then .error .invalidDensity
  else .ok (calculate_volume triangles material_mass)

/-! ## Wire encoding of binary records, for round-trip statements -/

/-- The four little-endian bytes of a 32-bit word. -/
def bytesOfU32LE (w : Nat) : List Nat :=
  [w % 0x100, w / 0x100 % 0x100, w / 0x10000 % 0x100, w / 0x1000000 % 0x100]

/-- The four bytes of a 32-bit word in the given byte order. -/
def bytesOfU32 : ByteOrder → Nat → List Nat
  | .little, w => bytesOfU32LE w
  | .big, w => [w / 0x1000000 % 0x100, w / 0x10000 % 0x100, w / 0x100 % 0x100, w % 0x100]

/-- The word reassembled from the four little-endian bytes of w; equal to w
whenever w fits 32 bits. -/
def leRound (w : Nat) : Nat :=
  w % 0x100 + 0x100 * (w / 0x100 % 0x100) + 0x10000 * (w / 0x10000 % 0x100)
    + 0x1000000 * (w / 0x1000000 % 0x100)

/-- The twelve bytes of a 3-float geometry field, always little-endian. -/
def encodePoint (p : Point3D Nat) : List Nat :=
  bytesOfU32LE p.x ++ bytesOfU32LE p.y ++ bytesOfU32LE p.z

/-- One 50-byte triangle record of the binary format: normal, three
vertices, and the 2-byte attribute field. -/
structure STLRecord where
  normal : Point3D Nat
  tri : Triangle Nat
  attr0 : Nat
  attr1 : Nat
deriving DecidableEq, Repr

/-- The 50 bytes of one triangle record. -/
def encodeRecord (r : STLRecord) : List Nat :=
  encodePoint r.normal ++ encodePoint r.tri.p1 ++ encodePoint r.tri.p2 ++
    encodePoint r.tri.p3 ++ [r.attr0, r.attr1]

/-- Every coordinate of the point fits in 32 bits. -/
def pointLt32 (p : Point3D Nat) : Prop :=
  p.x < 0x100000000 ∧ p.y < 0x100000000 ∧ p.z < 0x100000000

/-- Every coordinate of the triangle fits in 32 bits. -/
def triLt32 (t : Triangle Nat) : Prop :=
  pointLt32 t.p1 ∧ pointLt32 t.p2 ∧ pointLt32 t.p3

instance (p : Point3D Nat) : Decidable (pointLt32 p) := by
  unfold pointLt32; infer_instance

instance (t : Triangle Nat) : Decidable (triLt32 t) := by
  unfold triLt32; infer_instance

/-! ## Concrete inputs used by witnesses and counterexamples -/

/-- An 80-byte all-zero header; it does not start with the solid marker, so
streams beginning with it are classified binary. -/
def zeros80 : List Nat := List.replicate 80 0

/-- A binary stream declaring 5 triangles but containing only 2 triangles
worth of bytes after the count field. -/
def s52 : List Nat := zeros80 ++ [5, 0, 0, 0] ++ List.replicate 100 0

/-- The five bytes of the ASCII text solid. -/
def solid5 : List Nat := [115, 111, 108, 105, 100]

/-- A complete binary stream declaring one all-zero triangle. -/
def oneTriStream : List Nat := zeros80 ++ [1, 0, 0, 0] ++ List.replicate 50 0

/-- The triangle whose nine coordinate words are all zero. -/
def zeroTri : Triangle Nat := ⟨⟨0, 0, 0⟩, ⟨0, 0, 0⟩, ⟨0, 0, 0⟩⟩

end MasterCraft

namespace MasterCraft

/-! ## Claims about the volume estimator -/

/-- C3: the per-triangle signed volume computed by the estimator equals the
determinant formula (1/6) * (-x3*y2*z1 + x2*y3*z1 + x3*y1*z2 - x1*y3*z2
- x2*y1*z3 + x1*y2*z3) of the specification. -/
theorem signed_volume_matches_formula (p1 p2 p3 : Point3D ℚ) :
    signed_volume_of_triangle p1 p2 p3 =
      (1 / 6) * (-(p3.x * p2.y * p1.z) + p2.x * p3.y * p1.z
        + p3.x * p1.y * p2.z - p1.x * p3.y * p2.z
        - p2.x * p1.y * p3.z + p1.x * p2.y * p3.z) := by
  rfl

/-- C4: for every mesh and every density, the returned volume is the sum of
per-triangle signed volumes divided by 1000 and the returned mass is that
volume times the density, with no absolute value taken; in particular some
mesh with inverted winding yields a strictly negative volume at a valid
density. -/
theorem calculate_volume_sum_div_1000 :
    (∀ (tris : List (Triangle ℚ)) (d : ℚ),
      calculate_volume tris d =
        ((tris.map (fun t => signed_volume_of_triangle t.p1 t.p2 t.p3)).sum / 1000,
         (tris.map (fun t => signed_volume_of_triangle t.p1 t.p2 t.p3)).sum / 1000 * d)) ∧
    (∃ tris : List (Triangle ℚ), ∃ d : ℚ, 0 ≤ d ∧ (calculate_volume tris d).1 < 0) := by
  refine ⟨fun tris d => rfl, ⟨[⟨⟨1, 0, 0⟩, ⟨0, 0, 1⟩, ⟨0, 1, 0⟩⟩], 1, by norm_num, ?_⟩⟩
  norm_num [calculate_volume, signed_volume_of_triangle]

/-- C8: the estimator applied to the empty mesh with any non-negative
density returns volume zero and mass zero. -/
theorem calculate_volume_empty_mesh (d : ℚ) (hd : 0 ≤ d) :
    calculate_volume [] d = (0, 0) := by
  simp [calculate_volume]

/-- Witness for C8 at the concrete density 1. -/
theorem calculate_volume_empty_mesh_witness :
    (0 : ℚ) ≤ 1 ∧ calculate_volume [] 1 = (0, 0) :=
  ⟨by norm_num, calculate_volume_empty_mesh 1 (by norm_num)⟩

/-- C1 counterexample: at the empty mesh and density -1 the estimation does
not fail; it returns the pair (0, 0), while the error contract written in
the specification would demand an InvalidDensity failure. -/
theorem negative_density_returns_pair :
    calculate_volume [] (-1) = (0, 0) ∧
    calculate_volume_spec [] (-1) = .error .invalidDensity := by
  constructor
  · simp [calculate_volume]
  · norm_num [calculate_volume_spec]

/-- C1 amended: for every mesh and every density strictly below zero the
estimation succeeds, returning exactly the same (volume, volume * density)
pair it computes for valid densities; the source performs no density
validation at all. -/
theorem calculate_volume_no_density_check (tris : List (Triangle ℚ)) (d : ℚ)
    (hd : d < 0) :
    calculate_volume tris d =
      ((tris.map (fun t => signed_volume_of_triangle t.p1 t.p2 t.p3)).sum / 1000,
       (tris.map (fun t => signed_volume_of_triangle t.p1 t.p2 t.p3)).sum / 1000 * d) :=
  rfl

/-- Witness for the amended C1 at the empty mesh and density -1. -/
theorem calculate_volume_no_density_check_witness :
    (-1 : ℚ) < 0 ∧ calculate_volume [] (-1) =
      ((([] : List (Triangle ℚ)).map
        (fun t => signed_volume_of_triangle t.p1 t.p2 t.p3)).sum / 1000,
       (([] : List (Triangle ℚ)).map
        (fun t => signed_volume_of_triangle t.p1 t.p2 t.p3)).sum / 1000 * (-1)) :=
  ⟨by norm_num, calculate_volume_no_density_check [] (-1) (by norm_num)⟩

/-! ## Claims about format detection -/

/-- C7: format detection depends on nothing but the leading 80 bytes, and a
stream is classified textual (not binary) exactly when the best-effort
decoding of those bytes starts with the marker solid; every other stream is
treated as binary. -/
theorem is_binary_detection :
    (∀ s t : List Nat, s.take 80 = t.take 80 → is_binary s = is_binary t) ∧
    (∀ s : List Nat, is_binary s = false ↔
      solidMarker.isPrefixOf (utf8DecodeReplace (s.take 80)) = true) := by
  constructor
  · intro s t h
    simp only [is_binary, h]
  · intro s
    simp [is_binary]

/-- Witness for C7: two streams agreeing on their first 80 bytes receive the
same classification, and a concrete textual stream satisfies the marker
test. -/
theorem is_binary_detection_witness :
    ((zeros80 ++ [7]).take 80 = (zeros80 ++ [9]).take 80 ∧
      is_binary (zeros80 ++ [7]) = is_binary (zeros80 ++ [9])) ∧
    (is_binary solid5 = false ↔
      solidMarker.isPrefixOf (utf8DecodeReplace (solid5.take 80)) = true) :=
  ⟨⟨by decide, is_binary_detection.1 (zeros80 ++ [7]) (zeros80 ++ [9]) (by decide)⟩,
    is_binary_detection.2 solid5⟩

/-! ## Claims about decoding -/

/-- C5: a stream whose decoded 80-byte header starts with solid is left
undecoded: a fresh decode produces the empty mesh with no error, and the
estimator on an empty mesh returns volume and mass zero for every
density. -/
theorem solid_stream_empty_mesh (ord : ByteOrder) (s : List Nat)
    (h : solidMarker.isPrefixOf (utf8DecodeReplace (s.take 80)) = true) :
    read_stl ord s [] = .ok [] ∧ ∀ d : ℚ, calculate_volume [] d = (0, 0) := by
  refine ⟨?_, fun d => by simp [calculate_volume]⟩
  simp [read_stl, is_binary, h]

/-- Witness for C5 at the five-byte stream solid. -/
theorem solid_stream_empty_mesh_witness :
    solidMarker.isPrefixOf (utf8DecodeReplace (solid5.take 80)) = true ∧
    (read_stl .little solid5 [] = .ok [] ∧
      ∀ d : ℚ, calculate_volume [] d = (0, 0)) :=
  ⟨by decide, solid_stream_empty_mesh .little solid5 (by decide)⟩

/-- C9: decoding is deterministic; two decode runs on the same stream, each
from a fresh decoder state, produce the same result. -/
theorem read_stl_deterministic (ord : ByteOrder) (s : List Nat)
    (r1 r2 : Except StlError (List (Triangle Nat)))
    (h1 : read_stl ord s [] = r1) (h2 : read_stl ord s [] = r2) :
    r1 = r2 := by
  rw [← h1, ← h2]

/-- Witness for C9 at a concrete one-triangle stream. -/
theorem read_stl_deterministic_witness :
    read_stl .little oneTriStream [] = .ok [zeroTri] ∧
    (Except.ok [zeroTri] : Except StlError (List (Triangle Nat))) = .ok [zeroTri] :=
  ⟨by decide, read_stl_deterministic .little oneTriStream _ _ (by decide) (by decide)⟩


/-! ## Reduction lemmas for the Except monad -/

/-- Binding a success runs the continuation. -/
theorem except_bind_ok {ε α β : Type} (a : α) (f : α → Except ε β) :
    ((Except.ok a : Except ε α) >>= f) = f a := rfl

/-- Binding a failure propagates the failure. -/
theorem except_bind_error {ε α β : Type} (e : ε) (f : α → Except ε β) :
    ((Except.error e : Except ε α) >>= f) = Except.error e := rfl

/-- Mapping over a success applies the function. -/
theorem except_fmap_ok {ε α β : Type} (f : α → β) (a : α) :
    (f <$> (Except.ok a : Except ε α)) = Except.ok (f a) := rfl

/-- Mapping over a failure propagates the failure. -/
theorem except_fmap_error {ε α β : Type} (f : α → β) (e : ε) :
    (f <$> (Except.error e : Except ε α)) = (Except.error e : Except ε β) := rfl

/-- The pure of the Except monad is the ok constructor. -/
theorem except_pure_eq {ε α : Type} (a : α) :
    (pure a : Except ε α) = Except.ok a := rfl

/-- Except.map over a success applies the function. -/
theorem except_map_ok {ε α β : Type} (f : α → β) (a : α) :
    Except.map f (Except.ok a : Except ε α) = Except.ok (f a) := rfl

/-- Except.map over a failure propagates the failure. -/
theorem except_map_error {ε α β : Type} (f : α → β) (e : ε) :
    Except.map f (Except.error e : Except ε α) = (Except.error e : Except ε β) := rfl

/-- Unfolding of read_stl on a binary-classified stream. -/
theorem read_stl_binary (ord : ByteOrder) (s : List Nat)
    (tris : List (Triangle Nat)) (hb : is_binary s = true) :
    read_stl ord s tris =
      (unpackU32 ord ((s.drop 80).take 4) >>=
        fun n => readLoop n ((s.drop 80).drop 4) tris) := by
  simp only [read_stl, hb, if_true]

/-- Unfolding of read_stl on a textual-classified stream. -/
theorem read_stl_textual (ord : ByteOrder) (s : List Nat)
    (tris : List (Triangle Nat)) (hb : is_binary s = false) :
    read_stl ord s tris = .ok tris := by
  simp only [read_stl, hb, Bool.false_eq_true, if_false]

/-! ## Structural lemmas on unpacking -/

/-- A buffer of the wrong length makes unpack3f raise struct.error 12. -/
theorem unpack3f_of_ne (bs : List Nat) (h : bs.length ≠ 12) :
    unpack3f bs = .error (.structError 12) := by
  simp [unpack3f, h]

/-- A 12-byte buffer makes unpack3f return its three words. -/
theorem unpack3f_of_eq (bs : List Nat) (h : bs.length = 12) :
    unpack3f bs = .ok ⟨f32WordOfBytes (bs.take 4),
      f32WordOfBytes ((bs.drop 4).take 4), f32WordOfBytes ((bs.drop 8).take 4)⟩ := by
  simp [unpack3f, h]

/-- Fewer than 48 bytes at the start of a triangle record make one of the
four geometry unpacks fail with struct.error 12. -/
theorem read_triangle_short (bs : List Nat) (h : bs.length < 48) :
    read_triangle bs = .error (.structError 12) := by
  by_cases h1 : bs.length < 12
  · have e1 : (bs.take 12).length ≠ 12 := by
      simp only [List.length_take]; omega
    simp only [read_triangle, unpack3f_of_ne _ e1, except_bind_error]
  · have e1 : (bs.take 12).length = 12 := by
      simp only [List.length_take]; omega
    by_cases h2 : bs.length < 24
    · have e2 : ((bs.drop 12).take 12).length ≠ 12 := by
        simp only [List.length_take, List.length_drop]; omega
      simp only [read_triangle, unpack3f_of_eq _ e1, except_bind_ok,
        unpack3f_of_ne _ e2, except_bind_error]
    · have e2 : ((bs.drop 12).take 12).length = 12 := by
        simp only [List.length_take, List.length_drop]; omega
      by_cases h3 : bs.length < 36
      · have e3 : ((bs.drop 24).take 12).length ≠ 12 := by
          simp only [List.length_take, List.length_drop]; omega
        simp only [read_triangle, unpack3f_of_eq _ e1, unpack3f_of_eq _ e2,
          except_bind_ok, unpack3f_of_ne _ e3, except_bind_error]
      · have e3 : ((bs.drop 24).take 12).length = 12 := by
          simp only [List.length_take, List.length_drop]; omega
        have e4 : ((bs.drop 36).take 12).length ≠ 12 := by
          simp only [List.length_take, List.length_drop]; omega
        simp only [read_triangle, unpack3f_of_eq _ e1, unpack3f_of_eq _ e2,
          unpack3f_of_eq _ e3, except_bind_ok, unpack3f_of_ne _ e4,
          except_bind_error, except_fmap_error]

/-- With at least 48 bytes available, read_triangle succeeds and leaves the
stream 50 bytes further on. -/
theorem read_triangle_ok (bs : List Nat) (h : 48 ≤ bs.length) :
    read_triangle bs = .ok (triAt bs, bs.drop 50) := by
  have e1 : (bs.take 12).length = 12 := by
    simp only [List.length_take]; omega
  have e2 : ((bs.drop 12).take 12).length = 12 := by
    simp only [List.length_take, List.length_drop]; omega
  have e3 : ((bs.drop 24).take 12).length = 12 := by
    simp only [List.length_take, List.length_drop]; omega
  have e4 : ((bs.drop 36).take 12).length = 12 := by
    simp only [List.length_take, List.length_drop]; omega
  simp only [read_triangle, unpack3f_of_eq _ e1, unpack3f_of_eq _ e2,
    unpack3f_of_eq _ e3, unpack3f_of_eq _ e4, except_bind_ok, except_fmap_ok,
    except_pure_eq, triAt, pointAt]

/-- The decoding loop on a stream too short for its remaining count fails
with struct.error 12. -/
theorem readLoop_short :
    ∀ (n : Nat) (bs : List Nat) (acc : List (Triangle Nat)),
      bs.length < 50 * n + 48 →
      readLoop (n + 1) bs acc = .error (.structError 12) := by
  intro n
  induction n with
  | zero =>
    intro bs acc h
    have hs : bs.length < 48 := by omega
    simp only [readLoop, read_triangle_short bs hs, except_bind_error]
  | succ m ih =>
    intro bs acc h
    by_cases hs : bs.length < 48
    · simp only [readLoop, read_triangle_short bs hs, except_bind_error]
    · push_neg at hs
      have ht := read_triangle_ok bs hs
      have hlen : (bs.drop 50).length < 50 * m + 48 := by
        simp only [List.length_drop]; omega
      simp only [readLoop, ht, except_bind_ok]
      exact ih (bs.drop 50) (acc ++ [triAt bs]) hlen

/-- C2 amended: for every byte order, every binary-classified stream that
declares at least one triangle but whose byte length falls short of the
declared geometry (strictly less than 84 + 50 * count - 2 bytes), and every
starting decoder state, decoding fails by raising the struct unpack error
that requires a 12-byte buffer; the error value carries no count of the
triangles read before the failure. -/
theorem truncated_stream_struct_error (ord : ByteOrder) (s : List Nat)
    (tris : List (Triangle Nat)) (n : Nat)
    (hb : is_binary s = true)
    (h84 : 84 ≤ s.length)
    (hn : u32OfBytes ord ((s.drop 80).take 4) = n)
    (h1 : 1 ≤ n)
    (hshort : s.length + 2 < 84 + 50 * n) :
    read_stl ord s tris = .error (.structError 12) := by
  have hc : ((s.drop 80).take 4).length = 4 := by
    simp only [List.length_take, List.length_drop]; omega
  obtain ⟨m, rfl⟩ : ∃ m, n = m + 1 := ⟨n - 1, by omega⟩
  have hlen : ((s.drop 80).drop 4).length < 50 * m + 48 := by
    simp only [List.length_drop]; omega
  have hcv : unpackU32 ord ((s.drop 80).take 4) = .ok (m + 1) := by
    simp [unpackU32, hc, hn]
  rw [read_stl_binary ord s tris hb, hcv, except_bind_ok]
  exact readLoop_short m ((s.drop 80).drop 4) tris hlen

/-- Witness for the amended C2 at the stream declaring 5 triangles with 2
triangles worth of bytes. -/
theorem truncated_stream_struct_error_witness :
    (is_binary s52 = true ∧ 84 ≤ s52.length ∧
      u32OfBytes .little ((s52.drop 80).take 4) = 5 ∧ 1 ≤ 5 ∧
      s52.length + 2 < 84 + 50 * 5) ∧
    read_stl .little s52 [] = .error (.structError 12) :=
  ⟨⟨by decide, by decide, by decide, by decide, by decide⟩,
    truncated_stream_struct_error .little s52 [] 5 (by decide) (by decide)
      (by decide) (by decide) (by decide)⟩

/-- C2 counterexample: the stream declaring 5 triangles with only 2
triangles worth of bytes fails with the plain struct unpack error, not with
a TruncatedInput error reporting 2 triangles read as the claim states. -/
theorem truncated_stream_counterexample :
    read_stl .little s52 [] = .error (.structError 12) ∧
    read_stl .little s52 [] ≠ .error (.truncatedInput 2) := by
  constructor
  · decide
  · decide

/-! ## Round-trip decoding of encoded records -/

/-- The byte encoding of a 32-bit word decodes back to the word, in either
byte order. -/
theorem u32OfBytes_bytesOfU32 (ord : ByteOrder) (w : Nat)
    (hw : w < 0x100000000) : u32OfBytes ord (bytesOfU32 ord w) = w := by
  cases ord <;> simp only [bytesOfU32, u32OfBytes, bytesOfU32LE] <;> omega

/-- The count field always encodes to four bytes. -/
theorem bytesOfU32_length (ord : ByteOrder) (w : Nat) :
    (bytesOfU32 ord w).length = 4 := by
  cases ord <;> rfl

/-- Reassembling the little-endian bytes of a word bounded by 2 to the 32
gives the word back. -/
theorem leRound_eq (w : Nat) (h : w < 0x100000000) : leRound w = w := by
  unfold leRound
  omega

/-- Reading a triangle at the start of an encoded record yields exactly the
record triangle and the bytes following the record; the normal and the
attribute bytes do not influence the result. -/
theorem read_triangle_encode (r : STLRecord) (hr : triLt32 r.tri)
    (rest : List Nat) :
    read_triangle (encodeRecord r ++ rest) = .ok (r.tri, rest) := by
  obtain ⟨⟨n1, n2, n3⟩, ⟨⟨ax, ay, az⟩, ⟨bx, bb, bz⟩, ⟨cx, cy, cz⟩⟩, a0, a1⟩ := r
  obtain ⟨⟨g1, g2, g3⟩, ⟨g4, g5, g6⟩, ⟨g7, g8, g9⟩⟩ := hr
  have base : read_triangle (encodeRecord
      ⟨⟨n1, n2, n3⟩, ⟨⟨ax, ay, az⟩, ⟨bx, bb, bz⟩, ⟨cx, cy, cz⟩⟩, a0, a1⟩ ++ rest) =
      .ok (⟨⟨leRound ax, leRound ay, leRound az⟩, ⟨leRound bx, leRound bb, leRound bz⟩,
        ⟨leRound cx, leRound cy, leRound cz⟩⟩, rest) := rfl
  rw [base, leRound_eq ax g1, leRound_eq ay g2, leRound_eq az g3,
    leRound_eq bx g4, leRound_eq bb g5, leRound_eq bz g6,
    leRound_eq cx g7, leRound_eq cy g8, leRound_eq cz g9]

/-- The decoding loop consumes a concatenation of encoded records and
appends exactly their triangles, in order, to the accumulator. -/
theorem readLoop_encode :
    ∀ (recs : List STLRecord) (acc : List (Triangle Nat)),
      (∀ r ∈ recs, triLt32 r.tri) →
      readLoop recs.length ((recs.map encodeRecord).flatten) acc =
        .ok (acc ++ recs.map (fun r => r.tri)) := by
  intro recs
  induction recs with
  | nil => intro acc h; simp [readLoop]
  | cons r rs ih =>
    intro acc h
    have hr : triLt32 r.tri := h r (List.mem_cons_self r rs)
    have hrest : ∀ q ∈ rs, triLt32 q.tri := fun q hq => h q (List.mem_cons_of_mem r hq)
    simp only [List.length_cons, List.map_cons, List.flatten_cons, readLoop]
    rw [read_triangle_encode r hr ((rs.map encodeRecord).flatten), except_bind_ok]
    rw [ih (acc ++ [r.tri]) hrest]
    simp

/-- C6: for every platform byte order, every 80-byte header accepted as
binary, and every list of records whose coordinates fit 32 bits, decoding
the stream made of the header, the count in the platform byte order, and
the concatenated 50-byte records (each a little-endian normal, three
little-endian vertex points, and a 2-byte attribute field) returns exactly
the records vertex triangles in encounter order; the header, the normals,
and the attribute fields are discarded. -/
theorem binary_decode_roundtrip (ord : ByteOrder) (header : List Nat)
    (recs : List STLRecord)
    (hh : header.length = 80)
    (hb : is_binary (header ++ bytesOfU32 ord recs.length ++
      (recs.map encodeRecord).flatten) = true)
    (hn : recs.length < 0x100000000)
    (ht : ∀ r ∈ recs, triLt32 r.tri) :
    read_stl ord (header ++ bytesOfU32 ord recs.length ++
        (recs.map encodeRecord).flatten) [] =
      .ok (recs.map (fun r => r.tri)) := by
  have hdrop : (header ++ bytesOfU32 ord recs.length ++
      (recs.map encodeRecord).flatten).drop 80 =
      bytesOfU32 ord recs.length ++ (recs.map encodeRecord).flatten := by
    rw [List.append_assoc, ← hh, List.drop_left]
  have htake : (bytesOfU32 ord recs.length ++
      (recs.map encodeRecord).flatten).take 4 = bytesOfU32 ord recs.length := by
    rw [← bytesOfU32_length ord recs.length, List.take_left]
  have hdrop4 : (bytesOfU32 ord recs.length ++
      (recs.map encodeRecord).flatten).drop 4 = (recs.map encodeRecord).flatten := by
    rw [← bytesOfU32_length ord recs.length, List.drop_left]
  have hcv : unpackU32 ord (bytesOfU32 ord recs.length) = .ok recs.length := by
    simp [unpackU32, bytesOfU32_length, u32OfBytes_bytesOfU32 ord recs.length hn]
  rw [read_stl_binary _ _ _ hb, hdrop, htake, hdrop4, hcv, except_bind_ok]
  simpa using readLoop_encode recs [] ht

/-- Witness for C6 at a one-record stream with the all-zero header. -/
theorem binary_decode_roundtrip_witness :
    ((zeros80.length = 80 ∧
      is_binary (zeros80 ++ bytesOfU32 .little 1 ++
        ([(⟨⟨0, 0, 0⟩, zeroTri, 0, 0⟩ : STLRecord)].map encodeRecord).flatten) = true) ∧
      (1 : Nat) < 0x100000000 ∧
      ∀ r ∈ [(⟨⟨0, 0, 0⟩, zeroTri, 0, 0⟩ : STLRecord)], triLt32 r.tri) ∧
    read_stl .little (zeros80 ++ bytesOfU32 .little 1 ++
        ([(⟨⟨0, 0, 0⟩, zeroTri, 0, 0⟩ : STLRecord)].map encodeRecord).flatten) [] =
      .ok [zeroTri] :=
  ⟨⟨⟨by decide, by decide⟩, by decide, by decide⟩,
    binary_decode_roundtrip .little zeros80 [⟨⟨0, 0, 0⟩, zeroTri, 0, 0⟩]
      (by decide) (by decide) (by decide) (by decide)⟩

/-! ## Accumulation across decode calls -/

/-- Prepending the decoder state distributes over the decoding loop. -/
theorem readLoop_map_append :
    ∀ (n : Nat) (bs : List Nat) (L acc : List (Triangle Nat)),
      readLoop n bs (L ++ acc) = Except.map (fun T => L ++ T) (readLoop n bs acc) := by
  intro n
  induction n with
  | zero => intro bs L acc; simp only [readLoop, except_map_ok]
  | succ m ih =>
    intro bs L acc
    simp only [readLoop]
    cases hr : read_triangle bs with
    | error e =>
      simp only [hr, except_bind_error, except_map_error]
    | ok r =>
      simp only [hr, except_bind_ok]
      rw [List.append_assoc]
      exact ih r.2 L (acc ++ [r.1])

/-- C10: decode appends to the instance triangle list: from any starting
state L, a stream whose fresh decode yields T leaves the state at L ++ T,
so a second decode on the same instance keeps the first decode triangles in
front of its own. -/
theorem read_stl_appends (ord : ByteOrder) (s : List Nat)
    (L T : List (Triangle Nat)) (h : read_stl ord s [] = .ok T) :
    read_stl ord s L = .ok (L ++ T) := by
  cases hb : is_binary s with
  | false =>
    rw [read_stl_textual ord s [] hb] at h
    rw [read_stl_textual ord s L hb]
    injection h with h2
    rw [← h2, List.append_nil]
  | true =>
    rw [read_stl_binary ord s [] hb] at h
    rw [read_stl_binary ord s L hb]
    cases hu : unpackU32 ord ((s.drop 80).take 4) with
    | error e =>
      rw [hu, except_bind_error] at h
      exact Except.noConfusion h
    | ok n =>
      rw [hu, except_bind_ok] at h
      rw [except_bind_ok]
      have hm := readLoop_map_append n ((s.drop 80).drop 4) L []
      rw [List.append_nil] at hm
      rw [hm, h, except_map_ok]

/-- Witness for C10: decoding the one-triangle stream from the state
already holding one triangle yields the two-element concatenation. -/
theorem read_stl_appends_witness :
    read_stl .little oneTriStream [] = .ok [zeroTri] ∧
    read_stl .little oneTriStream [zeroTri] = .ok ([zeroTri] ++ [zeroTri]) :=
  ⟨by decide,
    read_stl_appends .little oneTriStream [zeroTri] [zeroTri] (by decide)⟩

end MasterCraft
